import Mathlib

/-! # Message traits of `ros/message_traits.h`

A shallow embedding of the trait layer of `core/roslib/include/ros/message_traits.h`.

* A C++ message struct is described by a `Struct` (does it declare the data member
  `header`, and what are its remaining members) together with the members and the
  trait specialisations it supplies (`MessageType`).
* Template selection is a function of that description: a primary template is the
  branch taken when no specialisation is registered, and the partial specialisations
  guarded by `boost::enable_if<HasHeader<M> >` are the branch taken when
  `HasHeader<M>::value` is `true`.
* A non-null pointer into a message object is the sub-object it designates, given by
  how it is read and how it is assigned in the current state of that object; the null
  pointer `0` is `none`.
-/

namespace ros

/-- Modelled from the spec: `ros::Time` is declared in `ros/time.h`, which is not among
the sources. A time stamp is a pair of unsigned counters (seconds, nanoseconds). -/
structure Time where
  sec : Nat
  nsec : Nat
deriving DecidableEq

/-- Modelled from the spec: the default-constructed `ros::Time()` is the zero/epoch
time stamp. -/
def Time.zero : Time := ⟨0, 0⟩

end ros

namespace roslib

/-- Modelled from the spec: `roslib::Header` is only forward-declared in the source
(`ROS_FORWARD_DECLARE_MESSAGE(roslib, Header, Header)`); the members this layer touches
are the time stamp `stamp` and the frame identifier `frame_id`. -/
structure Header where
  stamp : ros.Time
  frame_id : String
deriving DecidableEq

end roslib

namespace ros
namespace message_traits

/-! ## Message structs -/

/-- A message struct that declares the data member `roslib::Header header`; `rest`
stands for all its other data members. -/
structure Stamped (R : Type) where
  header : roslib.Header
  rest : R

/-- The shape of a message struct, as far as this header looks at it: `plain R` declares
no member named `header` (its values are those of `R`), `stamped R` declares
`roslib::Header header` next to the members `R`. -/
inductive Struct : Type 1 where
  | plain (R : Type) : Struct
  | stamped (R : Type) : Struct

/-- The values (objects) of a message struct. -/
@[reducible]
def Struct.M : Struct → Type
  | .plain R => R
  | .stamped R => Stamped R

/-- The members of a struct other than `header`. -/
@[reducible]
def Struct.Rest : Struct → Type
  | .plain R => R
  | .stamped R => R

/-- Whether the struct declares the data member `header`. -/
def Struct.declaresHeader : Struct → Bool
  | .plain _ => false
  | .stamped _ => true

/-- The members of an object other than `header`. -/
def Struct.rest : (S : Struct) → S.M → S.Rest
  | .plain _, m => m
  | .stamped _, m => Stamped.rest m

/-- The member access `m.header`, for a struct that declares the member. -/
def Struct.header : (S : Struct) → S.declaresHeader = true → S.M → roslib.Header
  | .stamped _, _, m => Stamped.header m

/-- The assignment `m.header = H`, for a struct that declares the member. -/
def Struct.assignHeader : (S : Struct) → S.declaresHeader = true → roslib.Header → S.M → S.M
  | .stamped _, _, H, m => { m with header := H }

/-! ## Pointers into a message object -/

/-- A non-null pointer `A*` into a message object of type `M`: the sub-object it
designates, read in and assigned in the current state of the object. -/
structure Ref (M A : Type) where
  read : M → A
  write : A → M → M

/-- A non-null pointer `A const*` into a message object of type `M`: read access only. -/
structure ConstRef (M A : Type) where
  read : M → A

/-- The C++ type `A*`: `none` is the null pointer `0`. -/
abbrev Ptr (M A : Type) := Option (Ref M A)

/-- The C++ type `A const*`: `none` is the null pointer `0`. -/
abbrev ConstPtr (M A : Type) := Option (ConstRef M A)

/-! ## TrueType / FalseType -/

/-- The two base classes a boolean trait derives from. -/
inductive BoolType where
  | TrueType
  | FalseType
deriving DecidableEq

/-- The `static const bool value` of `TrueType` and of `FalseType`. -/
def BoolType.value : BoolType → Bool
  | .TrueType => true
  | .FalseType => false

/-- The `value` of a boolean trait `X<M>`: that of the registered specialisation when
there is one, otherwise that of the primary template
`template<typename M> struct X : public FalseType {}`. -/
def BoolType.resolve : Option BoolType → Bool
  | some b => b.value
  | none => BoolType.FalseType.value

/-! ## Message types -/

/-- How a metadata member hands its `std::string` to the caller. The header does not fix
the member's return type, only that the result has `c_str()`: `byValue` is a member
returning `std::string`, whose result is a temporary of the calling expression;
`byReference` is a member returning `const std::string&` to a string that outlives the
call. -/
inductive ReturnKind where
  | byValue
  | byReference
deriving DecidableEq

/-- A static metadata member such as `M::__s_getMD5Sum()`: how it returns, and the
string it returns. -/
structure StaticMember where
  returns : ReturnKind
  result : String

/-- An instance metadata member such as `m.__getMD5Sum()`: how it returns, and the
string it returns on each object. -/
structure InstanceMember (M : Type) where
  returns : ReturnKind
  result : M → String

/-- The metadata members a message struct may declare: the static functions
`M::__s_getMD5Sum()`, `M::__s_getDataType()`, `M::__s_getMessageDefinition()` and the
member functions `m.__getMD5Sum()`, `m.__getDataType()`, `m.__getMessageDefinition()`.
`none` means the struct declares no such member. -/
structure Members (M : Type) where
  __s_getMD5Sum : Option StaticMember
  __getMD5Sum : Option (InstanceMember M)
  __s_getDataType : Option StaticMember
  __getDataType : Option (InstanceMember M)
  __s_getMessageDefinition : Option StaticMember
  __getMessageDefinition : Option (InstanceMember M)

/-- A message type as the trait layer sees it: its struct, the metadata members it
declares, and the specialisations of `IsSimple`, `IsFixedSize` and `HasHeader` registered
for it (`none`: no specialisation, the primary template applies). The partial
specialisations of `Header`, `FrameId` and `TimeStamp` name `m.header`, so a type whose
`HasHeader` value is `true` declares that member. -/
structure MessageType where
  struct : Struct
  members : Members struct.M
  specIsSimple : Option BoolType
  specIsFixedSize : Option BoolType
  specHasHeader : Option BoolType
  header_declared : BoolType.resolve specHasHeader = true → struct.declaresHeader = true

/-- The C++ type `M` of the objects of a message type. -/
@[reducible]
def MessageType.M (T : MessageType) : Type := T.struct.M

/-- The value `IsSimple<M>::value`. -/
def IsSimple.value (T : MessageType) : Bool := BoolType.resolve T.specIsSimple

/-- The value `IsFixedSize<M>::value`. -/
def IsFixedSize.value (T : MessageType) : Bool := BoolType.resolve T.specIsFixedSize

/-- The value `HasHeader<M>::value`. -/
def HasHeader.value (T : MessageType) : Bool := BoolType.resolve T.specHasHeader

/-- The member access `m.header` of a type whose `HasHeader` value is `true`. -/
def MessageType.header (T : MessageType) (h : HasHeader.value T = true) (m : T.M) :
    roslib.Header :=
  T.struct.header (T.header_declared h) m

/-- The assignment `m.header = H` of a type whose `HasHeader` value is `true`. -/
def MessageType.assignHeader (T : MessageType) (h : HasHeader.value T = true)
    (H : roslib.Header) (m : T.M) : T.M :=
  T.struct.assignHeader (T.header_declared h) H m

/-- The members of `m` other than `header`. -/
def MessageType.rest (T : MessageType) (m : T.M) : T.struct.Rest := T.struct.rest m

/-! ## Identity metadata: `MD5Sum`, `DataType`, `Definition`

Each template forwards to a member of `M` and has no other definition, so it can be
instantiated only for a struct that declares the member: the result is `none` when the
member is missing (the instantiation is ill-formed). Otherwise the function evaluates
`return <member call>.c_str();` and hands the caller a `const char*`. -/

/-- A `const char*` as it reaches the caller of a query: `dangling` points into a
`std::string` that no longer exists, so nothing can be read through it; `cstring chars`
points to the live NUL-terminated characters `chars`. -/
inductive CharPtr where
  | dangling
  | cstring (chars : String)
deriving DecidableEq

/-- The C string found at `s.c_str()`: the characters of `s` before its first NUL. -/
def c_str (s : String) : String :=
  ⟨s.data.takeWhile fun c => c != Char.ofNat 0⟩

/-- The statement `return f().c_str();` for a call `f()` that returns the string `s`. A
temporary is destroyed at the end of the statement, so the pointer taken from a by-value
result dangles once the function has returned. -/
def returnCStr (k : ReturnKind) (s : String) : CharPtr :=
  match k with
  | .byValue => .dangling
  | .byReference => .cstring (c_str s)

/-- The static form `MD5Sum<M>::value()`: `return M::__s_getMD5Sum().c_str();`. -/
def MD5Sum.value (T : MessageType) : Option CharPtr :=
  T.members.__s_getMD5Sum.map fun f => returnCStr f.returns f.result

/-- The instance form `MD5Sum<M>::value(const M& m)`: `return m.__getMD5Sum().c_str();`. -/
def MD5Sum.valueOf (T : MessageType) (m : T.M) : Option CharPtr :=
  T.members.__getMD5Sum.map fun f => returnCStr f.returns (f.result m)

/-- The static form `DataType<M>::value()`: `return M::__s_getDataType().c_str();`. -/
def DataType.value (T : MessageType) : Option CharPtr :=
  T.members.__s_getDataType.map fun f => returnCStr f.returns f.result

/-- The instance form `DataType<M>::value(const M& m)`:
`return m.__getDataType().c_str();`. -/
def DataType.valueOf (T : MessageType) (m : T.M) : Option CharPtr :=
  T.members.__getDataType.map fun f => returnCStr f.returns (f.result m)

/-- The static form `Definition<M>::value()`:
`return M::__s_getMessageDefinition().c_str();`. -/
def Definition.value (T : MessageType) : Option CharPtr :=
  T.members.__s_getMessageDefinition.map fun f => returnCStr f.returns f.result

/-- The instance form `Definition<M>::value(const M& m)`:
`return m.__getMessageDefinition().c_str();`. -/
def Definition.valueOf (T : MessageType) (m : T.M) : Option CharPtr :=
  T.members.__getMessageDefinition.map fun f => returnCStr f.returns (f.result m)

/-! ## `Header`, `FrameId`, `TimeStamp`: primary templates -/

/-- Primary `Header<M>::pointer(M& m)`: `return 0;`. -/
def Header.primary.pointer {M : Type} (_m : M) : Ptr M roslib.Header := none

/-- Primary `Header<M>::pointer(const M& m)`: `return 0;`. -/
def Header.primary.pointer_const {M : Type} (_m : M) : ConstPtr M roslib.Header := none

/-- Primary `FrameId<M>::pointer(M& m)`: `return 0;`. -/
def FrameId.primary.pointer {M : Type} (_m : M) : Ptr M String := none

/-- Primary `FrameId<M>::pointer(const M& m)`: `return 0;`. -/
def FrameId.primary.pointer_const {M : Type} (_m : M) : ConstPtr M String := none

/-- Primary `FrameId<M>::value(const M& m)`: `return std::string();`. -/
def FrameId.primary.value {M : Type} (_m : M) : String := ""

/-- Primary `TimeStamp<M>::pointer(M& m)`: `return 0;`. -/
def TimeStamp.primary.pointer {M : Type} (_m : M) : Ptr M ros.Time := none

/-- Primary `TimeStamp<M>::pointer(const M& m)`: `return 0;`. -/
def TimeStamp.primary.pointer_const {M : Type} (_m : M) : ConstPtr M ros.Time := none

/-- Primary `TimeStamp<M>::value(const M& m)`: `return ros::Time();`. -/
def TimeStamp.primary.value {M : Type} (_m : M) : ros.Time := ros.Time.zero

/-! ## `Header`, `FrameId`, `TimeStamp`: specialisations enabled by `HasHeader<M>` -/

/-- Enabled `Header<M>::pointer(M& m)`: `return &m.header;`. -/
def Header.enabled.pointer (T : MessageType) (h : HasHeader.value T = true) (_m : T.M) :
    Ptr T.M roslib.Header :=
  some { read := fun o => T.header h o
         write := fun H o => T.assignHeader h H o }

/-- Enabled `Header<M>::pointer(const M& m)`: `return &m.header;`. -/
def Header.enabled.pointer_const (T : MessageType) (h : HasHeader.value T = true)
    (_m : T.M) : ConstPtr T.M roslib.Header :=
  some { read := fun o => T.header h o }

/-- Enabled `FrameId<M>::pointer(M& m)`: `return &m.header.frame_id;`. -/
def FrameId.enabled.pointer (T : MessageType) (h : HasHeader.value T = true) (_m : T.M) :
    Ptr T.M String :=
  some { read := fun o => (T.header h o).frame_id
         write := fun s o => T.assignHeader h { T.header h o with frame_id := s } o }

/-- Enabled `FrameId<M>::pointer(const M& m)`: `return &m.header.frame_id;`. -/
def FrameId.enabled.pointer_const (T : MessageType) (h : HasHeader.value T = true)
    (_m : T.M) : ConstPtr T.M String :=
  some { read := fun o => (T.header h o).frame_id }

/-- Enabled `FrameId<M>::value(const M& m)`: `return m.header.frame_id;`. -/
def FrameId.enabled.value (T : MessageType) (h : HasHeader.value T = true) (m : T.M) :
    String :=
  (T.header h m).frame_id

/-- Enabled `TimeStamp<M>::pointer(M& m)`: `return &m.header.stamp;`. -/
def TimeStamp.enabled.pointer (T : MessageType) (h : HasHeader.value T = true) (_m : T.M) :
    Ptr T.M ros.Time :=
  some { read := fun o => (T.header h o).stamp
         write := fun t o => T.assignHeader h { T.header h o with stamp := t } o }

/-- Enabled `TimeStamp<M>::pointer(const M& m)`: `return &m.header.stamp;`. -/
def TimeStamp.enabled.pointer_const (T : MessageType) (h : HasHeader.value T = true)
    (_m : T.M) : ConstPtr T.M ros.Time :=
  some { read := fun o => (T.header h o).stamp }

/-- Enabled `TimeStamp<M>::value(const M& m)`: `return m.header.stamp;`. -/
def TimeStamp.enabled.value (T : MessageType) (h : HasHeader.value T = true) (m : T.M) :
    ros.Time :=
  (T.header h m).stamp

/-! ## Template selection

`Header<M>`, `FrameId<M>` and `TimeStamp<M>` name the enabled specialisation exactly when
`HasHeader<M>::value` is `true`, and the primary template otherwise. -/

/-- The function `Header<M>::pointer(M& m)`. -/
def Header.pointer (T : MessageType) (m : T.M) : Ptr T.M roslib.Header :=
  if h : HasHeader.value T = true then Header.enabled.pointer T h m
  else Header.primary.pointer m

/-- The function `Header<M>::pointer(const M& m)`. -/
def Header.pointer_const (T : MessageType) (m : T.M) : ConstPtr T.M roslib.Header :=
  if h : HasHeader.value T = true then Header.enabled.pointer_const T h m
  else Header.primary.pointer_const m

/-- The function `FrameId<M>::pointer(M& m)`. -/
def FrameId.pointer (T : MessageType) (m : T.M) : Ptr T.M String :=
  if h : HasHeader.value T = true then FrameId.enabled.pointer T h m
  else FrameId.primary.pointer m

/-- The function `FrameId<M>::pointer(const M& m)`. -/
def FrameId.pointer_const (T : MessageType) (m : T.M) : ConstPtr T.M String :=
  if h : HasHeader.value T = true then FrameId.enabled.pointer_const T h m
  else FrameId.primary.pointer_const m

/-- The function `FrameId<M>::value(const M& m)`. -/
def FrameId.value (T : MessageType) (m : T.M) : String :=
  if h : HasHeader.value T = true then FrameId.enabled.value T h m
  else FrameId.primary.value m

/-- The function `TimeStamp<M>::pointer(M& m)`. -/
def TimeStamp.pointer (T : MessageType) (m : T.M) : Ptr T.M ros.Time :=
  if h : HasHeader.value T = true then TimeStamp.enabled.pointer T h m
  else TimeStamp.primary.pointer m

/-- The function `TimeStamp<M>::pointer(const M& m)`. -/
def TimeStamp.pointer_const (T : MessageType) (m : T.M) : ConstPtr T.M ros.Time :=
  if h : HasHeader.value T = true then TimeStamp.enabled.pointer_const T h m
  else TimeStamp.primary.pointer_const m

/-- The function `TimeStamp<M>::value(const M& m)`. -/
def TimeStamp.value (T : MessageType) (m : T.M) : ros.Time :=
  if h : HasHeader.value T = true then TimeStamp.enabled.value T h m
  else TimeStamp.primary.value m

/-! ## Free functions -/

/-- The function `md5sum<M>()`. -/
def md5sum (T : MessageType) : Option CharPtr := MD5Sum.value T

/-- The function `datatype<M>()`. -/
def datatype (T : MessageType) : Option CharPtr := DataType.value T

/-- The function `definition<M>()`. -/
def definition (T : MessageType) : Option CharPtr := Definition.value T

/-- The function `md5sum(const M& m)`. -/
def md5sumOf (T : MessageType) (m : T.M) : Option CharPtr := MD5Sum.valueOf T m

/-- The function `datatype(const M& m)`. -/
def datatypeOf (T : MessageType) (m : T.M) : Option CharPtr := DataType.valueOf T m

/-- The function `definition(const M& m)`. -/
def definitionOf (T : MessageType) (m : T.M) : Option CharPtr := Definition.valueOf T m

/-- The function `header(M& msg)`. -/
def header (T : MessageType) (msg : T.M) : Ptr T.M roslib.Header := Header.pointer T msg

/-- The function `header(const M& msg)`. -/
def header_const (T : MessageType) (msg : T.M) : ConstPtr T.M roslib.Header :=
  Header.pointer_const T msg

/-- The function `frameId(M& msg)`. -/
def frameId (T : MessageType) (msg : T.M) : Ptr T.M String := FrameId.pointer T msg

/-- The function `frameId(const M& msg)`. -/
def frameId_const (T : MessageType) (msg : T.M) : ConstPtr T.M String :=
  FrameId.pointer_const T msg

/-- The function `timeStamp(M& msg)`. -/
def timeStamp (T : MessageType) (msg : T.M) : Ptr T.M ros.Time := TimeStamp.pointer T msg

/-- The function `timeStamp(const M& msg)`. -/
def timeStamp_const (T : MessageType) (msg : T.M) : ConstPtr T.M ros.Time :=
  TimeStamp.pointer_const T msg

/-- The function `isSimple<M>()`. -/
def isSimple (T : MessageType) : Bool := IsSimple.value T

/-- The function `isFixedSize<M>()`. -/
def isFixedSize (T : MessageType) : Bool := IsFixedSize.value T

/-- The function `hasHeader<M>()`. -/
def hasHeader (T : MessageType) : Bool := HasHeader.value T

/-! ## Example message types -/

/-- The members of `Point{x:int,y:int}`. -/
structure PointFields where
  x : Int
  y : Int
deriving DecidableEq

/-- The members of `PoseStamped{header:Header, x:float, y:float}` other than `header`
(the coordinates are kept as integers: their values play no part here). -/
structure PoseFields where
  x : Int
  y : Int
deriving DecidableEq

/-- A struct that declares none of the metadata members. -/
def Members.absent (M : Type) : Members M :=
  { __s_getMD5Sum := none, __getMD5Sum := none
    __s_getDataType := none, __getDataType := none
    __s_getMessageDefinition := none, __getMessageDefinition := none }

/-- Metadata members of a concrete message type with checksum `md5`, type name `dt` and
definition `defn`: every member returns its string the way `k` says, and the instance
members return the strings of the static members. -/
def Members.generated (M : Type) (k : ReturnKind) (md5 dt defn : String) : Members M :=
  { __s_getMD5Sum := some ⟨k, md5⟩, __getMD5Sum := some ⟨k, fun _ => md5⟩
    __s_getDataType := some ⟨k, dt⟩, __getDataType := some ⟨k, fun _ => dt⟩
    __s_getMessageDefinition := some ⟨k, defn⟩
    __getMessageDefinition := some ⟨k, fun _ => defn⟩ }

/-- A bare `Point{x:int,y:int}`: no metadata members and no trait specialisation. -/
def BarePoint : MessageType :=
  { struct := .plain PointFields
    members := Members.absent PointFields
    specIsSimple := none
    specIsFixedSize := none
    specHasHeader := none
    header_declared := by decide }

/-- The type `Point{x:int,y:int}` registered with `is_simple = true` and
`is_fixed_size = true`, and no header. -/
def Point : MessageType :=
  { struct := .plain PointFields
    members := Members.generated PointFields .byReference "p-md5" "geometry/Point" "int32 x; int32 y"
    specIsSimple := some .TrueType
    specIsFixedSize := some .TrueType
    specHasHeader := none
    header_declared := by decide }

/-- The type `PoseStamped{header:Header, x:float, y:float}` registered with
`has_header = true`. -/
def PoseStamped : MessageType :=
  { struct := .stamped PoseFields
    members := Members.generated (Stamped PoseFields) .byReference "ps-md5" "geometry/PoseStamped"
      "Header header; float64 x; float64 y"
    specIsSimple := none
    specIsFixedSize := none
    specHasHeader := some .TrueType
    header_declared := by intro _; rfl }

/-- A message type with the given three registrations; it declares `header`, so every
combination is well-formed. -/
def withFlags (s f h : Option BoolType) : MessageType :=
  { struct := .stamped Unit
    members := Members.absent (Stamped Unit)
    specIsSimple := s
    specIsFixedSize := f
    specHasHeader := h
    header_declared := by intro _; rfl }

/-- A pose in frame `"map"` at time `T`. -/
def poseAt (T : ros.Time) : PoseStamped.M :=
  { header := { stamp := T, frame_id := "map" }, rest := { x := 1, y := 2 } }

/-- A concrete `Point{x:int,y:int}` for which no trait is specialised; its metadata
members return references to strings that outlive the call. -/
def GeneratedPoint : MessageType :=
  { struct := .plain PointFields
    members := Members.generated PointFields .byReference "p-md5" "geometry/Point"
      "int32 x; int32 y"
    specIsSimple := none
    specIsFixedSize := none
    specHasHeader := none
    header_declared := by decide }

/-- A concrete `Point{x:int,y:int}` whose metadata members return `std::string` by
value, with the same strings in the static and in the instance members. -/
def ByValuePoint : MessageType :=
  { struct := .plain PointFields
    members := Members.generated PointFields .byValue "p-md5" "geometry/Point"
      "int32 x; int32 y"
    specIsSimple := none
    specIsFixedSize := none
    specHasHeader := none
    header_declared := by decide }

/-- The message type `T` with other registrations of `IsSimple` and `IsFixedSize`; the
struct, its members and the registration of `HasHeader` are kept. -/
def MessageType.reregister (T : MessageType) (s f : Option BoolType) : MessageType :=
  { T with specIsSimple := s, specIsFixedSize := f }

/-- The registration whose `value` is the given boolean. -/
def BoolType.ofBool : Bool → BoolType
  | true => .TrueType
  | false => .FalseType

/-! ## Member access on structs -/

theorem Struct.header_assignHeader (S : Struct) (d : S.declaresHeader = true)
    (H : roslib.Header) (m : S.M) : S.header d (S.assignHeader d H m) = H := by
  cases S with
  | plain R => exact absurd d (by simp [Struct.declaresHeader])
  | stamped R => rfl

theorem Struct.rest_assignHeader (S : Struct) (d : S.declaresHeader = true)
    (H : roslib.Header) (m : S.M) : S.rest (S.assignHeader d H m) = S.rest m := by
  cases S with
  | plain R => exact absurd d (by simp [Struct.declaresHeader])
  | stamped R => rfl

theorem MessageType.header_after_assign (T : MessageType) (h : HasHeader.value T = true)
    (H : roslib.Header) (m : T.M) : T.header h (T.assignHeader h H m) = H :=
  Struct.header_assignHeader T.struct (T.header_declared h) H m

theorem MessageType.rest_after_assign (T : MessageType) (h : HasHeader.value T = true)
    (H : roslib.Header) (m : T.M) : T.rest (T.assignHeader h H m) = T.rest m :=
  Struct.rest_assignHeader T.struct (T.header_declared h) H m

theorem BoolType.value_ofBool (b : Bool) : (BoolType.ofBool b).value = b := by
  cases b <;> rfl

/-! ## Defaults for types that register nothing -/

/-- C1: for a message type with no specialisation of `IsSimple`, `IsFixedSize` and
`HasHeader`, the queries `isSimple<M>()`, `isFixedSize<M>()` and `hasHeader<M>()` all
return false. -/
theorem capabilities_default_false (T : MessageType)
    (hs : T.specIsSimple = none) (hf : T.specIsFixedSize = none)
    (hh : T.specHasHeader = none) :
    isSimple T = false ∧ isFixedSize T = false ∧ hasHeader T = false := by
  simp [isSimple, isFixedSize, hasHeader, IsSimple.value, IsFixedSize.value,
    HasHeader.value, hs, hf, hh, BoolType.resolve, BoolType.value]

theorem capabilities_default_false_witness :
    BarePoint.specIsSimple = none ∧ BarePoint.specIsFixedSize = none ∧
    BarePoint.specHasHeader = none ∧
    (isSimple BarePoint = false ∧ isFixedSize BarePoint = false ∧
      hasHeader BarePoint = false) :=
  ⟨rfl, rfl, rfl, capabilities_default_false BarePoint rfl rfl rfl⟩

/-- C2: when `HasHeader<M>::value` is false, `header(m)`, `frameId(m)` and
`timeStamp(m)` return the null pointer for every message `m`, in the mutable and in the
const form. -/
theorem accessors_null_without_header (T : MessageType) (hh : hasHeader T = false)
    (m : T.M) :
    header T m = none ∧ header_const T m = none ∧
    frameId T m = none ∧ frameId_const T m = none ∧
    timeStamp T m = none ∧ timeStamp_const T m = none := by
  have hv : ¬ HasHeader.value T = true := by
    have : HasHeader.value T = false := hh
    simp [this]
  refine ⟨?_, ?_, ?_, ?_, ?_, ?_⟩
  · simp only [header, Header.pointer, dif_neg hv, Header.primary.pointer]
  · simp only [header_const, Header.pointer_const, dif_neg hv, Header.primary.pointer_const]
  · simp only [frameId, FrameId.pointer, dif_neg hv, FrameId.primary.pointer]
  · simp only [frameId_const, FrameId.pointer_const, dif_neg hv,
      FrameId.primary.pointer_const]
  · simp only [timeStamp, TimeStamp.pointer, dif_neg hv, TimeStamp.primary.pointer]
  · simp only [timeStamp_const, TimeStamp.pointer_const, dif_neg hv,
      TimeStamp.primary.pointer_const]

theorem accessors_null_without_header_witness :
    hasHeader Point = false ∧
    (header Point ⟨3, 4⟩ = none ∧ header_const Point ⟨3, 4⟩ = none ∧
      frameId Point ⟨3, 4⟩ = none ∧ frameId_const Point ⟨3, 4⟩ = none ∧
      timeStamp Point ⟨3, 4⟩ = none ∧ timeStamp_const Point ⟨3, 4⟩ = none) :=
  ⟨rfl, accessors_null_without_header Point rfl ⟨3, 4⟩⟩

/-- C3: when `HasHeader<M>::value` is false, `FrameId<M>::value(m)` is the empty string
and `TimeStamp<M>::value(m)` is the default-constructed (zero) time, for every message
`m`. -/
theorem values_default_without_header (T : MessageType) (hh : hasHeader T = false)
    (m : T.M) :
    FrameId.value T m = "" ∧ TimeStamp.value T m = ros.Time.zero ∧
    TimeStamp.value T m = { sec := 0, nsec := 0 } := by
  have hv : ¬ HasHeader.value T = true := by
    have : HasHeader.value T = false := hh
    simp [this]
  refine ⟨?_, ?_, ?_⟩
  · simp only [FrameId.value, dif_neg hv, FrameId.primary.value]
  · simp only [TimeStamp.value, dif_neg hv, TimeStamp.primary.value]
  · simp only [TimeStamp.value, dif_neg hv, TimeStamp.primary.value, ros.Time.zero]

theorem values_default_without_header_witness :
    hasHeader Point = false ∧
    (FrameId.value Point ⟨3, 4⟩ = "" ∧ TimeStamp.value Point ⟨3, 4⟩ = ros.Time.zero ∧
      TimeStamp.value Point ⟨3, 4⟩ = { sec := 0, nsec := 0 }) :=
  ⟨rfl, values_default_without_header Point rfl ⟨3, 4⟩⟩

/-! ## Types registered with a header -/

/-- C4: when `HasHeader<M>::value` is true, `header(m)` is a non-null pointer to
`m.header`: reading through it yields `m.header`; assigning `H` through it yields a
message whose `header` is `H` and whose other members are those of `m`, the same message
as after `m.header = H`; after a later assignment `m.header = K` it reads `K`; and the
const form reads the same member as the mutable form. -/
theorem header_aliases_member (T : MessageType) (hh : hasHeader T = true) (m : T.M)
    (H K : roslib.Header) :
    ∃ (p : Ref T.M roslib.Header) (c : ConstRef T.M roslib.Header),
      header T m = some p ∧ header_const T m = some c ∧
      p.read m = T.header hh m ∧
      T.header hh (p.write H m) = H ∧
      T.rest (p.write H m) = T.rest m ∧
      p.write H m = T.assignHeader hh H m ∧
      p.read (p.write H m) = H ∧
      p.read (T.assignHeader hh K m) = K ∧
      c.read (T.assignHeader hh K m) = K ∧
      c.read (p.write H m) = H ∧
      c.read = p.read := by
  have hv : HasHeader.value T = true := hh
  refine ⟨⟨fun o => T.header hv o, fun X o => T.assignHeader hv X o⟩,
    ⟨fun o => T.header hv o⟩, ?_, ?_, rfl, ?_, ?_, rfl, ?_, ?_, ?_, ?_, rfl⟩
  · simp only [header, Header.pointer, dif_pos hv, Header.enabled.pointer]
  · simp only [header_const, Header.pointer_const, dif_pos hv, Header.enabled.pointer_const]
  · exact T.header_after_assign hv H m
  · exact T.rest_after_assign hv H m
  · exact T.header_after_assign hv H m
  · exact T.header_after_assign hv K m
  · exact T.header_after_assign hv K m
  · exact T.header_after_assign hv H m

theorem header_aliases_member_witness :
    hasHeader PoseStamped = true ∧
    ∃ (p : Ref PoseStamped.M roslib.Header) (c : ConstRef PoseStamped.M roslib.Header),
      header PoseStamped (poseAt ⟨5, 6⟩) = some p ∧
      header_const PoseStamped (poseAt ⟨5, 6⟩) = some c ∧
      p.read (poseAt ⟨5, 6⟩) = PoseStamped.header rfl (poseAt ⟨5, 6⟩) ∧
      PoseStamped.header rfl (p.write ⟨⟨7, 8⟩, "odom"⟩ (poseAt ⟨5, 6⟩)) = ⟨⟨7, 8⟩, "odom"⟩ ∧
      PoseStamped.rest (p.write ⟨⟨7, 8⟩, "odom"⟩ (poseAt ⟨5, 6⟩)) =
        PoseStamped.rest (poseAt ⟨5, 6⟩) ∧
      p.write ⟨⟨7, 8⟩, "odom"⟩ (poseAt ⟨5, 6⟩) =
        PoseStamped.assignHeader rfl ⟨⟨7, 8⟩, "odom"⟩ (poseAt ⟨5, 6⟩) ∧
      p.read (p.write ⟨⟨7, 8⟩, "odom"⟩ (poseAt ⟨5, 6⟩)) = ⟨⟨7, 8⟩, "odom"⟩ ∧
      p.read (PoseStamped.assignHeader rfl ⟨⟨9, 0⟩, "base"⟩ (poseAt ⟨5, 6⟩)) =
        ⟨⟨9, 0⟩, "base"⟩ ∧
      c.read (PoseStamped.assignHeader rfl ⟨⟨9, 0⟩, "base"⟩ (poseAt ⟨5, 6⟩)) =
        ⟨⟨9, 0⟩, "base"⟩ ∧
      c.read (p.write ⟨⟨7, 8⟩, "odom"⟩ (poseAt ⟨5, 6⟩)) = ⟨⟨7, 8⟩, "odom"⟩ ∧
      c.read = p.read :=
  ⟨rfl, header_aliases_member PoseStamped rfl (poseAt ⟨5, 6⟩) ⟨⟨7, 8⟩, "odom"⟩
    ⟨⟨9, 0⟩, "base"⟩⟩

/-- C5: when `HasHeader<M>::value` is true, `frameId(m)` is a non-null pointer to
`m.header.frame_id` and `timeStamp(m)` a non-null pointer to `m.header.stamp`, in the
mutable and in the const form. Assigning `s` through `frameId(m)` sets `header.frame_id`
to `s` and leaves `header.stamp` and all other members as they were; assigning `t`
through `timeStamp(m)` sets `header.stamp` to `t` and leaves `header.frame_id` and all
other members as they were. -/
theorem frameId_timeStamp_alias_members (T : MessageType) (hh : hasHeader T = true)
    (m : T.M) (s : String) (t : ros.Time) :
    (∃ (p : Ref T.M String) (c : ConstRef T.M String),
      frameId T m = some p ∧ frameId_const T m = some c ∧
      p.read m = (T.header hh m).frame_id ∧ c.read = p.read ∧
      (T.header hh (p.write s m)).frame_id = s ∧
      (T.header hh (p.write s m)).stamp = (T.header hh m).stamp ∧
      T.rest (p.write s m) = T.rest m ∧
      p.read (p.write s m) = s) ∧
    (∃ (q : Ref T.M ros.Time) (d : ConstRef T.M ros.Time),
      timeStamp T m = some q ∧ timeStamp_const T m = some d ∧
      q.read m = (T.header hh m).stamp ∧ d.read = q.read ∧
      (T.header hh (q.write t m)).stamp = t ∧
      (T.header hh (q.write t m)).frame_id = (T.header hh m).frame_id ∧
      T.rest (q.write t m) = T.rest m ∧
      q.read (q.write t m) = t) := by
  have hv : HasHeader.value T = true := hh
  constructor
  · refine ⟨⟨fun o => (T.header hv o).frame_id,
        fun x o => T.assignHeader hv { T.header hv o with frame_id := x } o⟩,
      ⟨fun o => (T.header hv o).frame_id⟩, ?_, ?_, rfl, rfl, ?_, ?_, ?_, ?_⟩
    · simp only [frameId, FrameId.pointer, dif_pos hv, FrameId.enabled.pointer]
    · simp only [frameId_const, FrameId.pointer_const, dif_pos hv,
        FrameId.enabled.pointer_const]
    · simp only [T.header_after_assign hv]
    · simp only [T.header_after_assign hv]
    · exact T.rest_after_assign hv _ m
    · simp only [T.header_after_assign hv]
  · refine ⟨⟨fun o => (T.header hv o).stamp,
        fun x o => T.assignHeader hv { T.header hv o with stamp := x } o⟩,
      ⟨fun o => (T.header hv o).stamp⟩, ?_, ?_, rfl, rfl, ?_, ?_, ?_, ?_⟩
    · simp only [timeStamp, TimeStamp.pointer, dif_pos hv, TimeStamp.enabled.pointer]
    · simp only [timeStamp_const, TimeStamp.pointer_const, dif_pos hv,
        TimeStamp.enabled.pointer_const]
    · simp only [T.header_after_assign hv]
    · simp only [T.header_after_assign hv]
    · exact T.rest_after_assign hv _ m
    · simp only [T.header_after_assign hv]

theorem frameId_timeStamp_alias_members_witness :
    hasHeader PoseStamped = true ∧
    ((∃ (p : Ref PoseStamped.M String) (c : ConstRef PoseStamped.M String),
      frameId PoseStamped (poseAt ⟨5, 6⟩) = some p ∧
      frameId_const PoseStamped (poseAt ⟨5, 6⟩) = some c ∧
      p.read (poseAt ⟨5, 6⟩) = (PoseStamped.header rfl (poseAt ⟨5, 6⟩)).frame_id ∧
      c.read = p.read ∧
      (PoseStamped.header rfl (p.write "odom" (poseAt ⟨5, 6⟩))).frame_id = "odom" ∧
      (PoseStamped.header rfl (p.write "odom" (poseAt ⟨5, 6⟩))).stamp =
        (PoseStamped.header rfl (poseAt ⟨5, 6⟩)).stamp ∧
      PoseStamped.rest (p.write "odom" (poseAt ⟨5, 6⟩)) = PoseStamped.rest (poseAt ⟨5, 6⟩) ∧
      p.read (p.write "odom" (poseAt ⟨5, 6⟩)) = "odom") ∧
    (∃ (q : Ref PoseStamped.M ros.Time) (d : ConstRef PoseStamped.M ros.Time),
      timeStamp PoseStamped (poseAt ⟨5, 6⟩) = some q ∧
      timeStamp_const PoseStamped (poseAt ⟨5, 6⟩) = some d ∧
      q.read (poseAt ⟨5, 6⟩) = (PoseStamped.header rfl (poseAt ⟨5, 6⟩)).stamp ∧
      d.read = q.read ∧
      (PoseStamped.header rfl (q.write ⟨7, 8⟩ (poseAt ⟨5, 6⟩))).stamp = ⟨7, 8⟩ ∧
      (PoseStamped.header rfl (q.write ⟨7, 8⟩ (poseAt ⟨5, 6⟩))).frame_id =
        (PoseStamped.header rfl (poseAt ⟨5, 6⟩)).frame_id ∧
      PoseStamped.rest (q.write ⟨7, 8⟩ (poseAt ⟨5, 6⟩)) = PoseStamped.rest (poseAt ⟨5, 6⟩) ∧
      q.read (q.write ⟨7, 8⟩ (poseAt ⟨5, 6⟩)) = ⟨7, 8⟩)) :=
  ⟨rfl, frameId_timeStamp_alias_members PoseStamped rfl (poseAt ⟨5, 6⟩) "odom" ⟨7, 8⟩⟩

/-- C6: when `HasHeader<M>::value` is true, `FrameId<M>::value(m)` equals
`m.header.frame_id` and `TimeStamp<M>::value(m)` equals `m.header.stamp` (a
`PoseStamped` with `header.frame_id = "map"` and `header.stamp = t` yields `"map"` and
`t`). -/
theorem values_read_header (T : MessageType) (hh : hasHeader T = true) (m : T.M) :
    FrameId.value T m = (T.header hh m).frame_id ∧
    TimeStamp.value T m = (T.header hh m).stamp := by
  have hv : HasHeader.value T = true := hh
  refine ⟨?_, ?_⟩
  · simp only [FrameId.value, dif_pos hv, FrameId.enabled.value]
  · simp only [TimeStamp.value, dif_pos hv, TimeStamp.enabled.value]

theorem values_read_header_witness :
    hasHeader PoseStamped = true ∧
    (FrameId.value PoseStamped (poseAt ⟨5, 6⟩) = "map" ∧
      TimeStamp.value PoseStamped (poseAt ⟨5, 6⟩) = ⟨5, 6⟩) :=
  ⟨rfl, values_read_header PoseStamped rfl (poseAt ⟨5, 6⟩)⟩

/-! ## Identity metadata -/

/-- A C string ends at the first NUL of the `std::string` it is taken from. -/
theorem c_str_stops_at_nul :
    c_str "a\x00b" = "a" ∧ c_str "p-md5" = "p-md5" ∧ c_str "" = "" := by
  decide

/-- For a concrete message type whose metadata members return references to strings
that outlive the call, the static and the instance form of each identity query hand back
the same C string: the type's own string up to its first NUL. -/
theorem identity_forms_agree_by_reference (T : MessageType) (md5 dt defn : String)
    (h : T.members = Members.generated T.M .byReference md5 dt defn) (m : T.M) :
    (md5sum T = some (.cstring (c_str md5)) ∧
      md5sumOf T m = some (.cstring (c_str md5))) ∧
    (datatype T = some (.cstring (c_str dt)) ∧
      datatypeOf T m = some (.cstring (c_str dt))) ∧
    (definition T = some (.cstring (c_str defn)) ∧
      definitionOf T m = some (.cstring (c_str defn))) := by
  simp [md5sum, md5sumOf, datatype, datatypeOf, definition, definitionOf, MD5Sum.value,
    MD5Sum.valueOf, DataType.value, DataType.valueOf, Definition.value,
    Definition.valueOf, h, Members.generated, returnCStr]

theorem identity_forms_agree_by_reference_witness :
    GeneratedPoint.members =
      Members.generated GeneratedPoint.M .byReference "p-md5" "geometry/Point"
        "int32 x; int32 y" ∧
    ((md5sum GeneratedPoint = some (.cstring "p-md5") ∧
      md5sumOf GeneratedPoint ⟨3, 4⟩ = some (.cstring "p-md5")) ∧
    (datatype GeneratedPoint = some (.cstring "geometry/Point") ∧
      datatypeOf GeneratedPoint ⟨3, 4⟩ = some (.cstring "geometry/Point")) ∧
    (definition GeneratedPoint = some (.cstring "int32 x; int32 y") ∧
      definitionOf GeneratedPoint ⟨3, 4⟩ = some (.cstring "int32 x; int32 y"))) :=
  ⟨rfl, identity_forms_agree_by_reference GeneratedPoint "p-md5" "geometry/Point"
    "int32 x; int32 y" rfl ⟨3, 4⟩⟩

/-- C7: the static and the instance form of `md5sum`, `datatype` and `definition` are
to return identical strings for every concrete message type. For the concrete type
`ByValuePoint`, whose members return `std::string` by value, each of the six queries
hands back a dangling pointer, so no form returns a string and the two forms of
`md5sum`, of `datatype` and of `definition` do not return identical strings. -/
theorem identity_forms_dangle_by_value :
    (md5sum ByValuePoint = some .dangling ∧
      md5sumOf ByValuePoint ⟨3, 4⟩ = some .dangling ∧
      datatype ByValuePoint = some .dangling ∧
      datatypeOf ByValuePoint ⟨3, 4⟩ = some .dangling ∧
      definition ByValuePoint = some .dangling ∧
      definitionOf ByValuePoint ⟨3, 4⟩ = some .dangling) ∧
    ¬ (∃ s : String, md5sum ByValuePoint = some (.cstring s) ∧
        md5sumOf ByValuePoint ⟨3, 4⟩ = some (.cstring s)) ∧
    ¬ (∃ s : String, datatype ByValuePoint = some (.cstring s) ∧
        datatypeOf ByValuePoint ⟨3, 4⟩ = some (.cstring s)) ∧
    ¬ (∃ s : String, definition ByValuePoint = some (.cstring s) ∧
        definitionOf ByValuePoint ⟨3, 4⟩ = some (.cstring s)) := by
  have h1 : md5sum ByValuePoint = some .dangling := rfl
  have h2 : datatype ByValuePoint = some .dangling := rfl
  have h3 : definition ByValuePoint = some .dangling := rfl
  refine ⟨⟨rfl, rfl, rfl, rfl, rfl, rfl⟩, ?_, ?_, ?_⟩
  · rintro ⟨s, hs, _⟩
    rw [h1] at hs
    cases hs
  · rintro ⟨s, hs, _⟩
    rw [h2] at hs
    cases hs
  · rintro ⟨s, hs, _⟩
    rw [h3] at hs
    cases hs

/-- A struct that registers nothing and declares no metadata member has capability
flags false, while none of its identity queries is defined. -/
theorem identity_undefined_bare :
    (BarePoint.specIsSimple = none ∧ BarePoint.specIsFixedSize = none ∧
      BarePoint.specHasHeader = none) ∧
    (isSimple BarePoint = false ∧ isFixedSize BarePoint = false ∧
      hasHeader BarePoint = false) ∧
    (md5sum BarePoint = none ∧ datatype BarePoint = none ∧ definition BarePoint = none) ∧
    (md5sumOf BarePoint ⟨3, 4⟩ = none ∧ datatypeOf BarePoint ⟨3, 4⟩ = none ∧
      definitionOf BarePoint ⟨3, 4⟩ = none) :=
  ⟨⟨rfl, rfl, rfl⟩, ⟨rfl, rfl, rfl⟩, ⟨rfl, rfl, rfl⟩, ⟨rfl, rfl, rfl⟩⟩

/-- C8 (amended): for every message type that registers no specialisation the three
capability flags are defined and false. The identity queries have no default: each of
`md5sum`, `datatype`, `definition` (static and instance form) is defined exactly when
`M` declares the member it forwards to; and when that member returns a reference to a
string that outlives the call, the query hands back a pointer to that string's
characters up to its first NUL. -/
theorem identity_queries_forward (T : MessageType) (m : T.M)
    (hs : T.specIsSimple = none) (hf : T.specIsFixedSize = none)
    (hh : T.specHasHeader = none) :
    (isSimple T = false ∧ isFixedSize T = false ∧ hasHeader T = false) ∧
    ((md5sum T).isSome = T.members.__s_getMD5Sum.isSome ∧
      (datatype T).isSome = T.members.__s_getDataType.isSome ∧
      (definition T).isSome = T.members.__s_getMessageDefinition.isSome ∧
      (md5sumOf T m).isSome = T.members.__getMD5Sum.isSome ∧
      (datatypeOf T m).isSome = T.members.__getDataType.isSome ∧
      (definitionOf T m).isSome = T.members.__getMessageDefinition.isSome) ∧
    ((∀ s : String, T.members.__s_getMD5Sum = some ⟨.byReference, s⟩ →
        md5sum T = some (.cstring (c_str s))) ∧
      (∀ s : String, T.members.__s_getDataType = some ⟨.byReference, s⟩ →
        datatype T = some (.cstring (c_str s))) ∧
      (∀ s : String, T.members.__s_getMessageDefinition = some ⟨.byReference, s⟩ →
        definition T = some (.cstring (c_str s)))) ∧
    ((∀ f : T.M → String, T.members.__getMD5Sum = some ⟨.byReference, f⟩ →
        md5sumOf T m = some (.cstring (c_str (f m)))) ∧
      (∀ f : T.M → String, T.members.__getDataType = some ⟨.byReference, f⟩ →
        datatypeOf T m = some (.cstring (c_str (f m)))) ∧
      (∀ f : T.M → String, T.members.__getMessageDefinition = some ⟨.byReference, f⟩ →
        definitionOf T m = some (.cstring (c_str (f m))))) := by
  refine ⟨?_, ⟨?_, ?_, ?_, ?_, ?_, ?_⟩, ⟨?_, ?_, ?_⟩, ⟨?_, ?_, ?_⟩⟩
  · simp [isSimple, isFixedSize, hasHeader, IsSimple.value, IsFixedSize.value,
      HasHeader.value, hs, hf, hh, BoolType.resolve, BoolType.value]
  · simp [md5sum, MD5Sum.value]
  · simp [datatype, DataType.value]
  · simp [definition, Definition.value]
  · simp [md5sumOf, MD5Sum.valueOf]
  · simp [datatypeOf, DataType.valueOf]
  · simp [definitionOf, Definition.valueOf]
  · intro s h
    simp [md5sum, MD5Sum.value, h, returnCStr]
  · intro s h
    simp [datatype, DataType.value, h, returnCStr]
  · intro s h
    simp [definition, Definition.value, h, returnCStr]
  · intro f h
    simp [md5sumOf, MD5Sum.valueOf, h, returnCStr]
  · intro f h
    simp [datatypeOf, DataType.valueOf, h, returnCStr]
  · intro f h
    simp [definitionOf, Definition.valueOf, h, returnCStr]

theorem identity_queries_forward_witness :
    GeneratedPoint.specIsSimple = none ∧ GeneratedPoint.specIsFixedSize = none ∧
    GeneratedPoint.specHasHeader = none ∧
    ((isSimple GeneratedPoint = false ∧ isFixedSize GeneratedPoint = false ∧
        hasHeader GeneratedPoint = false) ∧
      ((md5sum GeneratedPoint).isSome = true ∧
        (datatype GeneratedPoint).isSome = true ∧
        (definition GeneratedPoint).isSome = true ∧
        (md5sumOf GeneratedPoint ⟨3, 4⟩).isSome = true ∧
        (datatypeOf GeneratedPoint ⟨3, 4⟩).isSome = true ∧
        (definitionOf GeneratedPoint ⟨3, 4⟩).isSome = true) ∧
      (md5sum GeneratedPoint = some (.cstring "p-md5") ∧
        datatype GeneratedPoint = some (.cstring "geometry/Point") ∧
        definition GeneratedPoint = some (.cstring "int32 x; int32 y")) ∧
      (md5sumOf GeneratedPoint ⟨3, 4⟩ = some (.cstring "p-md5") ∧
        datatypeOf GeneratedPoint ⟨3, 4⟩ = some (.cstring "geometry/Point") ∧
        definitionOf GeneratedPoint ⟨3, 4⟩ =
          some (.cstring "int32 x; int32 y"))) :=
  have h := identity_queries_forward GeneratedPoint ⟨3, 4⟩ rfl rfl rfl
  ⟨rfl, rfl, rfl, h.1, h.2.1,
    ⟨h.2.2.1.1 _ rfl, h.2.2.1.2.1 _ rfl, h.2.2.1.2.2 _ rfl⟩,
    ⟨h.2.2.2.1 _ rfl, h.2.2.2.2.1 _ rfl, h.2.2.2.2.2 _ rfl⟩⟩

/-! ## Independence and coherence -/

/-- C9: the three capability flags are independent. Each of `isSimple<M>()`,
`isFixedSize<M>()`, `hasHeader<M>()` is the value of its own registration; every one of
the eight combinations of values is realised by some message type; and registering
anything else for `IsSimple` and `IsFixedSize` changes neither `hasHeader<M>()` nor the
result of any `header`, `frameId`, `timeStamp` accessor or value form on any message. -/
theorem capability_flags_independent :
    (∀ T : MessageType,
      isSimple T = BoolType.resolve T.specIsSimple ∧
      isFixedSize T = BoolType.resolve T.specIsFixedSize ∧
      hasHeader T = BoolType.resolve T.specHasHeader) ∧
    (∀ a b c : Bool, ∃ T : MessageType,
      isSimple T = a ∧ isFixedSize T = b ∧ hasHeader T = c) ∧
    (∀ (T : MessageType) (s f : Option BoolType),
      isSimple (T.reregister s f) = BoolType.resolve s ∧
      isFixedSize (T.reregister s f) = BoolType.resolve f ∧
      hasHeader (T.reregister s f) = hasHeader T ∧
      ∀ m : T.M,
        header (T.reregister s f) m = header T m ∧
        header_const (T.reregister s f) m = header_const T m ∧
        frameId (T.reregister s f) m = frameId T m ∧
        frameId_const (T.reregister s f) m = frameId_const T m ∧
        timeStamp (T.reregister s f) m = timeStamp T m ∧
        timeStamp_const (T.reregister s f) m = timeStamp_const T m ∧
        FrameId.value (T.reregister s f) m = FrameId.value T m ∧
        TimeStamp.value (T.reregister s f) m = TimeStamp.value T m) := by
  refine ⟨fun T => ⟨rfl, rfl, rfl⟩, ?_, ?_⟩
  · intro a b c
    refine ⟨withFlags (some (BoolType.ofBool a)) (some (BoolType.ofBool b))
      (some (BoolType.ofBool c)), ?_, ?_, ?_⟩
    · exact BoolType.value_ofBool a
    · exact BoolType.value_ofBool b
    · exact BoolType.value_ofBool c
  · intro T s f
    exact ⟨rfl, rfl, rfl, fun m => ⟨rfl, rfl, rfl, rfl, rfl, rfl, rfl, rfl⟩⟩

/-- C10: for every message type and every message `m`, the reference accessors
`header(m)`, `frameId(m)`, `timeStamp(m)` (mutable and const) are non-null exactly when
`hasHeader<M>()` is true; `FrameId<M>::value(m)` and `TimeStamp<M>::value(m)` are what
`frameId(m)` and `timeStamp(m)` read when non-null, and the empty string and the zero
time when null; and when non-null `frameId(m)` and `timeStamp(m)` read and assign the
`frame_id` and `stamp` members of the header that `header(m)` points to. -/
theorem accessors_coherent (T : MessageType) (m : T.M) :
    ((header T m).isSome = hasHeader T ∧ (header_const T m).isSome = hasHeader T ∧
      (frameId T m).isSome = hasHeader T ∧ (frameId_const T m).isSome = hasHeader T ∧
      (timeStamp T m).isSome = hasHeader T ∧
      (timeStamp_const T m).isSome = hasHeader T) ∧
    (FrameId.value T m = ((frameId T m).map fun p => p.read m).getD "" ∧
      FrameId.value T m = ((frameId_const T m).map fun p => p.read m).getD "" ∧
      TimeStamp.value T m = ((timeStamp T m).map fun p => p.read m).getD ros.Time.zero ∧
      TimeStamp.value T m =
        ((timeStamp_const T m).map fun p => p.read m).getD ros.Time.zero) ∧
    ((frameId T m).map (fun p => p.read) =
        (header T m).map (fun p => fun o => (p.read o).frame_id) ∧
      (frameId_const T m).map (fun p => p.read) =
        (header_const T m).map (fun p => fun o => (p.read o).frame_id) ∧
      (timeStamp T m).map (fun p => p.read) =
        (header T m).map (fun p => fun o => (p.read o).stamp) ∧
      (timeStamp_const T m).map (fun p => p.read) =
        (header_const T m).map (fun p => fun o => (p.read o).stamp)) ∧
    ((frameId T m).map (fun p => p.write) =
        (header T m).map
          (fun p => fun s o => p.write { p.read o with frame_id := s } o) ∧
      (timeStamp T m).map (fun p => p.write) =
        (header T m).map
          (fun p => fun t o => p.write { p.read o with stamp := t } o)) := by
  by_cases hv : HasHeader.value T = true
  · have hh : hasHeader T = true := hv
    simp only [header, header_const, frameId, frameId_const, timeStamp, timeStamp_const,
      Header.pointer, Header.pointer_const, FrameId.pointer, FrameId.pointer_const,
      TimeStamp.pointer, TimeStamp.pointer_const, FrameId.value, TimeStamp.value,
      dif_pos hv, Header.enabled.pointer, Header.enabled.pointer_const,
      FrameId.enabled.pointer, FrameId.enabled.pointer_const, TimeStamp.enabled.pointer,
      TimeStamp.enabled.pointer_const, FrameId.enabled.value, TimeStamp.enabled.value, hh,
      Option.isSome_some, Option.map_some', Option.getD_some, and_self]
  · have hh : hasHeader T = false := by
      have : HasHeader.value T = false := by simpa using hv
      exact this
    simp only [header, header_const, frameId, frameId_const, timeStamp, timeStamp_const,
      Header.pointer, Header.pointer_const, FrameId.pointer, FrameId.pointer_const,
      TimeStamp.pointer, TimeStamp.pointer_const, FrameId.value, TimeStamp.value,
      dif_neg hv, Header.primary.pointer, Header.primary.pointer_const,
      FrameId.primary.pointer, FrameId.primary.pointer_const, TimeStamp.primary.pointer,
      TimeStamp.primary.pointer_const, FrameId.primary.value, TimeStamp.primary.value, hh,
      Option.isSome_none, Option.map_none', Option.getD_none, and_self]

end message_traits
end ros
